import Mathlib

/-!
Shallow embedding of the chat route handler (`POST` in the app's API route)
that wraps a streamed model conversation with an observability span
hierarchy (session → trace → workflow → agent → {tool, llm} spans) using a
logging SDK, plus the stream callbacks (`onFinish`, `onError`) and the two
tool execution functions (`weatherTool`, `convertTool`).

The logging SDK (`GalileoLogger`) and the model streaming provider are
external libraries; we model the handler's calls into the SDK as an emitted
list of `LogEvent`s, in program order.  Span parenting is managed inside
the external SDK; what the repository's code controls — and what we model —
is which span-emission calls are made, with which arguments, in which
order.  JavaScript `Date.now()` / `getTime()` millisecond clocks are
modelled as `Int` parameters; `Math.random()` draws and the possibility of
a `throw` inside a `try` block are modelled as explicit parameters.
-/

/-- A content part of a UI message: a text part (`type === 'text'`, with a
`text` field) or any other part type (carrying only its `type` string). -/
inductive MsgPart where
  | text (t : String)
  | other (ty : String)
deriving DecidableEq, Repr

/-- A message of the inbound conversation: `{ role, parts }`. -/
structure UIMessage where
  role : String
  parts : List MsgPart
deriving DecidableEq, Repr

/-- A JavaScript thrown value: either an `Error` instance (with a
`message`) or some non-`Error` value.  The code renders the latter as
`'Unknown error'` (`error instanceof Error ? error.message : 'Unknown error'`). -/
inductive JsError where
  | error (msg : String)
  | nonError
deriving DecidableEq, Repr

/-- The message string the handler extracts from a thrown value. -/
def jsErrorMessage : JsError → String
  | JsError.error m => m
  | JsError.nonError => "Unknown error"

/-- Token usage summary reported by the provider (`usage?.inputTokens` etc.;
each field may be absent). -/
structure Usage where
  inputTokens : Option Nat
  outputTokens : Option Nat
  totalTokens : Option Nat
deriving DecidableEq, Repr

/-- One call made into the logging SDK, with the arguments the handler
passes.  Timestamps (`createdAt`) are epoch milliseconds. -/
inductive LogEvent where
  | startSession (name : String)
  | setSessionId (id : String)
  | startTrace (input name : String)
  | workflowSpan (input name : String)
  | agentSpan (input name : String) (createdAt : Int) (tags : List String)
  | toolSpan (input output name : String) (durationNs : Int) (createdAt : Int)
      (tags : List String)
  | llmSpan (input : List (String × String)) (output : String × String)
      (model name : String) (durationNs : Int)
      (numInputTokens numOutputTokens totalTokens : Option Nat)
      (tags : List String)
  | conclude (output : String)
  | flush
deriving DecidableEq, Repr

/-- JavaScript string truthiness of an optional string field
(`undefined` and `''` are falsy). -/
def optTruthy : Option String → Bool
  | none => false
  | some s => !(s == "")

/-- JavaScript `a || b` for strings (`a` falsy means `a === ''`). -/
def jsOrString (a b : String) : String :=
  if a == "" then b else a

/-- The model identifier constant (`const MODEL_NAME = 'gpt-4o'`). -/
def MODEL_NAME : String := "gpt-4o"

deriving instance DecidableEq for Except

/-- The logging backend as seen through `logger.startSession`: it either
returns a fresh session identifier or throws. -/
structure Backend where
  startSessionResult : Except String String
deriving DecidableEq, Repr

/-- `` `Chat Session${chatId ? ` - ${chatId}` : ''}` ``. -/
def sessionName : Option String → String
  | some c => if c == "" then "Chat Session" else "Chat Session - " ++ c
  | none => "Chat Session"

/-- Result of step 2 of the handler (session resolution): the session id
(or the thrown error), the SDK calls made, and the updated
`chatSessionMap`. -/
structure SessionResolution where
  result : Except String String
  events : List LogEvent
  chatMap : List (String × String)
deriving DecidableEq, Repr

/-- The `else` branch of step 2: `await logger.startSession(...)`, then
`if (chatId) chatSessionMap.set(chatId, sessionId)`. -/
def createSession (backend : Backend) (chatMap : List (String × String))
    (chatId : Option String) : SessionResolution :=
  match backend.startSessionResult with
  | Except.error e => ⟨Except.error e, [], chatMap⟩
  | Except.ok sid =>
      ⟨Except.ok sid, [LogEvent.startSession (sessionName chatId)],
        match chatId with
        | some c => if c == "" then chatMap else (c, sid) :: chatMap
        | none => chatMap⟩

/-- Step 2 of the handler: `if (chatId && chatSessionMap.has(chatId))`
reuse the mapped session (`logger.setSessionId`), otherwise create a new
one.  The `Map` is modelled as an association list where `set` prepends. -/
def resolveSession (backend : Backend) (chatMap : List (String × String))
    (chatId : Option String) : SessionResolution :=
  match chatId with
  | some c =>
      if c == "" then createSession backend chatMap chatId
      else
        match chatMap.lookup c with
        | some sid => ⟨Except.ok sid, [LogEvent.setSessionId sid], chatMap⟩
        | none => createSession backend chatMap chatId
  | none => createSession backend chatMap chatId

/-- The first text part of a message's parts
(`parts?.find(p => p.type === 'text')`), if any. -/
def firstTextPart (parts : List MsgPart ) : Option String :=
  match parts.find? (fun p => match p with | MsgPart.text _ => true | _ => false) with
  | some (MsgPart.text t) => some t
  | _ => none

/-- The trace input (step 3):
`messages[messages.length - 1]?.parts?.find(p => p.type === 'text')?.text || 'Chat request'`. -/
def traceInput (messages : List UIMessage) : String :=
  jsOrString
    (match messages.getLast? with
     | some m => (firstTextPart m.parts).getD ""
     | none => "")
    "Chat request"

/-- Flattening of one part for the agent-span serialization:
`p.type === 'text' ? p.text : ` ``[${p.type}]`` . -/
def partToText : MsgPart → String
  | MsgPart.text t => t
  | MsgPart.other ty => "[" ++ ty ++ "]"

/-- Flattened content of a message:
`m.parts?.map(...).join(' ') || ''`. -/
def flattenParts (parts : List MsgPart ) : String :=
  jsOrString (String.intercalate " " (parts.map partToText)) ""

/-- `messages.map(m => ({ role: m.role, content: ... }))` — the
role/content pair list serialized for the agent span and passed raw to the
LLM span. -/
def serializePairs (messages : List UIMessage) : List (String × String) :=
  messages.map (fun m => (m.role, flattenParts m.parts))

/-! ### JSON serialization of the agent-span input

`JSON.stringify(messages.map(m => ({role, content})))` produces a compact
JSON array of two-field objects.  We model `JSON.stringify` on this shape:
strings are quoted with `"` and `\` escaped (the strings in play contain
no control characters, whose additional escaping we therefore omit), keys
appear in insertion order (`role`, then `content`), with no whitespace. -/

/-- Escape `"` and `\` in a character stream, as `JSON.stringify` does. -/
def escChars : List Char → List Char
  | [] => []
  | c :: cs =>
      if c = '"' ∨ c = '\\' then '\\' :: c :: escChars cs
      else c :: escChars cs

/-- A JSON string literal (opening quote, escaped content, closing quote). -/
def encStr (s : String) : List Char :=
  '"' :: (escChars s.data ++ ['"'])

/-- One serialized message object: `{"role":R,"content":C}`. -/
def encPairChars (p : String × String) : List Char :=
  "\x7b\"role\":".data ++ encStr p.1 ++ ",\"content\":".data ++ encStr p.2
    ++ ['\x7d']

/-- Tail of the serialized array after the first element. -/
def encTailChars : List (String × String) → List Char
  | [] => [']']
  | p :: ps => ',' :: (encPairChars p ++ encTailChars ps)

/-- The serialized array of message objects. -/
def encArrayChars : List (String × String) → List Char
  | [] => "[]".data
  | p :: ps => '[' :: (encPairChars p ++ encTailChars ps)

/-- `JSON.stringify` on a list of `{role, content}` objects. -/
def jsonStringifyPairs (l : List (String × String)) : String :=
  String.mk (encArrayChars l)

/-- The agent span input (step 5): `JSON.stringify(messages.map(...))`. -/
def serializeConversation (messages : List UIMessage) : String :=
  jsonStringifyPairs (serializePairs messages)

/-! ### A parser recovering the role/content pairs from the serialization -/

/-- Parse the body of a JSON string literal (the opening quote already
consumed): returns the unescaped content and the remainder after the
closing quote. -/
def parseStrAux : List Char → Option (List Char × List Char)
  | [] => none
  | c :: rest =>
      if c = '"' then some ([], rest)
      else if c = '\\' then
        match rest with
        | [] => none
        | d :: rest2 =>
            match parseStrAux rest2 with
            | some (s, r) => some (d :: s, r)
            | none => none
      else
        match parseStrAux rest with
        | some (s, r) => some (c :: s, r)
        | none => none

/-- Expect a literal character sequence at the head of the input. -/
def dropLit : List Char → List Char → Option (List Char)
  | [], input => some input
  | l :: ls, c :: cs => if c = l then dropLit ls cs else none
  | _ :: _, [] => none

/-- Parse a JSON string literal from its opening quote on. -/
def parseQuoted (input : List Char) : Option (List Char × List Char) :=
  match input with
  | '"' :: rest => parseStrAux rest
  | _ => none

/-- Parse one serialized message object, returning the `(role, content)`
pair and the remaining input. -/
def parsePair (input : List Char) : Option ((String × String) × List Char) :=
  match dropLit "\x7b\"role\":".data input with
  | none => none
  | some i1 =>
      match parseQuoted i1 with
      | none => none
      | some (r, i2) =>
          match dropLit ",\"content\":".data i2 with
          | none => none
          | some i3 =>
              match parseQuoted i3 with
              | none => none
              | some (c, i4) =>
                  match i4 with
                  | '\x7d' :: i5 => some ((String.mk r, String.mk c), i5)
                  | _ => none

/-- Parse the elements of a nonempty serialized array (opening bracket
already consumed), fuelled by an upper bound on the element count. -/
def parseArrayAux : Nat → List Char → Option (List (String × String) × List Char)
  | 0, _ => none
  | fuel + 1, input =>
      match parsePair input with
      | none => none
      | some (p, rest) =>
          match rest with
          | ']' :: rest2 => some ([p], rest2)
          | ',' :: rest2 =>
              match parseArrayAux fuel rest2 with
              | some (l, r) => some (p :: l, r)
              | none => none
          | _ => none

/-- Parse an agent-span input string back into its `(role, content)`
pairs; `none` when the string is not a full serialized array. -/
def parseAgentInput (s : String) : Option (List (String × String)) :=
  if s = "[]" then some []
  else
    match s.data with
    | '[' :: rest =>
        match parseArrayAux rest.length rest with
        | some (l, []) => some l
        | _ => none
    | _ => none

/-! ### The POST handler up to returning the streamed response

`streamText` returns immediately; its callbacks run while the response
streams.  `POST` therefore covers steps 1–7 and the `return
result.toUIMessageStreamResponse()`; the callbacks are modelled
separately below.  The surrounding `try`/`catch` logs request-level
errors (`console.error('Chat API error:', error)`) and re-throws. -/

/-- Outcome of one `POST` invocation: whether the streamed response was
returned (`Except.ok`) or an error was re-thrown (`Except.error`), the
resolved session id (when resolution succeeded), the SDK calls made before
returning, the updated `chatSessionMap`, and the operator-facing console
error lines. -/
structure PostResult where
  response : Except String Unit
  sessionId : Option String
  events : List LogEvent
  chatMap : List (String × String)
  consoleErrors : List String
deriving DecidableEq, Repr

/-- The route handler `POST`, parameterized by the backend's
`startSession` behavior, the current `chatSessionMap`, the parsed request
body (`messages`, optional `id`), and the agent-span start clock
(`agentStartTime`, epoch ms). -/
def POST (backend : Backend) (chatMap : List (String × String))
    (messages : List UIMessage) (chatId : Option String)
    (agentStartMs : Int) : PostResult :=
  let r := resolveSession backend chatMap chatId
  match r.result with
  | Except.error e =>
      ⟨Except.error e, none, r.events, r.chatMap, ["Chat API error: " ++ e]⟩
  | Except.ok sid =>
      ⟨Except.ok (), some sid,
        r.events ++
          [LogEvent.startTrace (traceInput messages) "Chat Exchange",
           LogEvent.workflowSpan
             "Processing chat request with agent decision-making"
             "Chat Processing Workflow",
           LogEvent.agentSpan (serializeConversation messages) "Weather Agent"
             agentStartMs ["agent", "tool-selection"]],
        r.chatMap, []⟩

/-! ### Tool execution functions

Each tool captures `toolStart`, runs its business logic inside `try`, and
emits one tool span on either branch; the `catch` branch re-throws.  The
business logic itself is total JavaScript, but the `try` region may throw
(any callee can), which we expose as an explicit `raised : Option JsError`
parameter; `Math.random()`'s draw appears as the `randTemperature`
parameter, and the two clock reads as `startMs`/`nowMs`. -/

/-- `(Date.now() - toolStart.getTime()) * 1000000` — the duration recorded
on tool and LLM spans, in nanoseconds. -/
def spanDurationNs (nowMs startMs : Int) : Int :=
  (nowMs - startMs) * 1000000

/-- `JSON.stringify({ error: msg })`. -/
def errorJson (msg : String) : String :=
  "\x7b\"error\":" ++ String.mk (encStr msg) ++ "\x7d"

/-- `JSON.stringify({ location })`. -/
def weatherInputJson (location : String) : String :=
  "\x7b\"location\":" ++ String.mk (encStr location) ++ "\x7d"

/-- `JSON.stringify({ location, temperature })`. -/
def weatherResultJson (location : String) (temperature : Int) : String :=
  "\x7b\"location\":" ++ String.mk (encStr location) ++ ",\"temperature\":"
    ++ toString temperature ++ "\x7d"

/-- `JSON.stringify({ temperature })`. -/
def convertInputJson (temperature : Int) : String :=
  "\x7b\"temperature\":" ++ toString temperature ++ "\x7d"

/-- `JSON.stringify({ celsius })`. -/
def convertResultJson (celsius : Int) : String :=
  "\x7b\"celsius\":" ++ toString celsius ++ "\x7d"

/-- `Math.round(x)` on an exact rational (rounds half toward +∞). -/
def jsRound (q : ℚ) : Int :=
  ⌊q + 1 / 2⌋

/-- The `weather` tool's `execute` function.  `randTemperature` stands for
`Math.round(Math.random() * (90 - 32) + 32)`; `raised` for a throw inside
the `try` region.  Returns the tool's result (`{location, temperature}`,
or the re-thrown error) and the emitted tool span. -/
def weatherToolRun (location : String) (randTemperature : Int)
    (raised : Option JsError) (startMs nowMs : Int) :
    Except JsError (String × Int) × List LogEvent :=
  match raised with
  | none =>
      (Except.ok (location, randTemperature),
        [LogEvent.toolSpan (weatherInputJson location)
          (weatherResultJson location randTemperature) "Weather Tool"
          (spanDurationNs nowMs startMs) startMs ["tool", "weather"]])
  | some err =>
      (Except.error err,
        [LogEvent.toolSpan (weatherInputJson location)
          (errorJson (jsErrorMessage err)) "Weather Tool (Error)"
          (spanDurationNs nowMs startMs) startMs ["tool", "weather", "error"]])

/-- `Math.round((temperature - 32) * (5 / 9))`, on exact rationals. -/
def fahrenheitToCelsius (temperature : Int) : Int :=
  jsRound (((temperature : ℚ) - 32) * (5 / 9))

/-- The `convertFahrenheitToCelsius` tool's `execute` function
(`convertTool`); parameters as in `weatherToolRun`. -/
def convertToolRun (temperature : Int) (raised : Option JsError)
    (startMs nowMs : Int) : Except JsError Int × List LogEvent :=
  match raised with
  | none =>
      (Except.ok (fahrenheitToCelsius temperature),
        [LogEvent.toolSpan (convertInputJson temperature)
          (convertResultJson (fahrenheitToCelsius temperature))
          "Temperature Conversion Tool" (spanDurationNs nowMs startMs) startMs
          ["tool", "conversion"]])
  | some err =>
      (Except.error err,
        [LogEvent.toolSpan (convertInputJson temperature)
          (errorJson (jsErrorMessage err)) "Temperature Conversion Tool (Error)"
          (spanDurationNs nowMs startMs) startMs
          ["tool", "conversion", "error"]])

/-! ### Stream callbacks (`onFinish`, `onError`) -/

/-- The SDK calls made by the `onFinish` callback: one LLM span, then
`conclude({ output: text || 'Chat completed successfully' })`, then
`await logger.flush()`. -/
def onFinishEvents (messages : List UIMessage) (text : String)
    (usage : Option Usage) (agentStartMs nowMs : Int) : List LogEvent :=
  [LogEvent.llmSpan (serializePairs messages) ("assistant", text) MODEL_NAME
      (MODEL_NAME ++ " Chat Completion") (spanDurationNs nowMs agentStartMs)
      (usage.bind Usage.inputTokens) (usage.bind Usage.outputTokens)
      (usage.bind Usage.totalTokens) ["llm", MODEL_NAME.toLower],
   LogEvent.conclude (jsOrString text "Chat completed successfully"),
   LogEvent.flush]

/-- The SDK calls made by the `onError` callback:
`conclude({ output: ` ``Error: ${...}`` ` })`, then `logger.flush()`. -/
def onErrorEvents (err : JsError) : List LogEvent :=
  [LogEvent.conclude ("Error: " ++ jsErrorMessage err), LogEvent.flush]

/-- How one request's stream ends: completion (with final text and usage)
or a mid-stream provider error. -/
inductive StreamOutcome where
  | finished (text : String) (usage : Option Usage)
  | errored (err : JsError)
deriving DecidableEq, Repr

/-- The SDK calls made during streaming termination: exactly one of the
two callbacks runs, according to the stream outcome. -/
def streamEvents (messages : List UIMessage) (outcome : StreamOutcome)
    (agentStartMs nowMs : Int) : List LogEvent :=
  match outcome with
  | StreamOutcome.finished text usage =>
      onFinishEvents messages text usage agentStartMs nowMs
  | StreamOutcome.errored err => onErrorEvents err

/-! ### Observation helpers over emitted events -/

/-- Is the event a `startSession` call? -/
def isStartSessionEv : LogEvent → Bool
  | LogEvent.startSession _ => true
  | _ => false

/-- Is the event a tool span emission? -/
def isToolSpanEv : LogEvent → Bool
  | LogEvent.toolSpan _ _ _ _ _ _ => true
  | _ => false

/-- Is the event an LLM span emission? -/
def isLlmSpanEv : LogEvent → Bool
  | LogEvent.llmSpan _ _ _ _ _ _ _ _ _ => true
  | _ => false

/-- Is the event a `conclude` call? -/
def isConcludeEv : LogEvent → Bool
  | LogEvent.conclude _ => true
  | _ => false

/-- Is the event a `flush` call? -/
def isFlushEv : LogEvent → Bool
  | LogEvent.flush => true
  | _ => false

/-- Is the event a tool span whose tags contain `"error"`? -/
def isErrorTaggedToolSpanEv : LogEvent → Bool
  | LogEvent.toolSpan _ _ _ _ _ tags => tags.contains "error"
  | _ => false

/-- The outputs of the `conclude` calls in an event list. -/
def concludeOutputs (l : List LogEvent) : List String :=
  l.filterMap fun e =>
    match e with
    | LogEvent.conclude o => some o
    | _ => none

/-- The serialized outputs of the tool spans in an event list. -/
def toolSpanOutputs (l : List LogEvent) : List String :=
  l.filterMap fun e =>
    match e with
    | LogEvent.toolSpan _ o _ _ _ _ => some o
    | _ => none

/-- The `durationNs` values recorded on the tool and LLM spans of an
event list. -/
def spanDurations (l : List LogEvent) : List Int :=
  l.filterMap fun e =>
    match e with
    | LogEvent.toolSpan _ _ _ d _ _ => some d
    | LogEvent.llmSpan _ _ _ _ d _ _ _ _ => some d
    | _ => none

/-- The text content of the text parts of a part list (what a lossless
parse would have to recover, per message). -/
def textParts (parts : List MsgPart ) : List String :=
  parts.filterMap fun p =>
    match p with
    | MsgPart.text t => some t
    | MsgPart.other _ => none

/-! ### Helper lemmas -/

lemma string_append_empty (s : String) : s ++ "" = s :=
  congrArg String.mk (List.append_nil s.data)

lemma firstTextPart_eq_head (parts : List MsgPart ) :
    firstTextPart parts = (textParts parts).head? := by
  induction parts with
  | nil => rfl
  | cons p ps ih =>
      cases p with
      | text t => simp [firstTextPart, textParts, List.find?]
      | other ty =>
          simpa [firstTextPart, textParts, List.find?] using ih

/-! ### Spec-side comparison definitions (from the claims' words, for
refutation and amendment; the executable definitions above are the
authoritative translation of the source) -/

/-- The last user-authored text content in the conversation, per the
claim's words: the final element of the sequence of all text-part contents
of `role == "user"` messages, in order. -/
def specLastUserText (messages : List UIMessage) : Option String :=
  (messages.foldl
    (fun acc m => if m.role == "user" then acc ++ textParts m.parts else acc)
    []).getLast?

/-- The trace input that claim C2 asserts: the last user-authored text, or
the placeholder when none exists. -/
def claimTraceInput (messages : List UIMessage) : String :=
  match specLastUserText messages with
  | some t => t
  | none => "Chat request"

/-- The trace input the code actually computes, restated per the amended
claim: the first text part of the final message regardless of role, with
the placeholder when the conversation is empty, the final message has no
text part, or that text is the empty string. -/
def amendedTraceInput (messages : List UIMessage) : String :=
  match messages.getLast? with
  | none => "Chat request"
  | some m =>
      match (textParts m.parts).head? with
      | some t => if t = "" then "Chat request" else t
      | none => "Chat request"

/-! ### C1 — observability failures and the returned stream -/

/-- C1 counterexample: with a logging backend whose `startSession` throws
`"boom"`, the handler does not return the streamed response — the
catch-all re-throws, so the request fails with that very error (refuting
the claim that observability exceptions never prevent the stream from
being returned). -/
theorem c1_counterexample :
    (POST ⟨Except.error "boom"⟩ [] [] none 0).response = Except.error "boom"
      ∧ ¬ (POST ⟨Except.error "boom"⟩ [] [] none 0).response = Except.ok () := by
  exact ⟨rfl, by decide⟩

/-- C1 (amended): any exception raised while resolving the session is
caught by the handler's catch-all, logged to the operator console
(`console.error('Chat API error:', ...)`), and re-thrown, so the streamed
response is not returned and no span is emitted; only the conclude/flush
calls inside the streaming callbacks run after the response has been
returned. -/
theorem c1_amended (backend : Backend) (chatMap : List (String × String))
    (messages : List UIMessage) (chatId : Option String) (agentStartMs : Int)
    (e : String) (hb : backend.startSessionResult = Except.error e)
    (hmiss : chatMap.lookup (chatId.getD "") = none) :
    (POST backend chatMap messages chatId agentStartMs).response
        = Except.error e
      ∧ (POST backend chatMap messages chatId agentStartMs).consoleErrors
        = ["Chat API error: " ++ e]
      ∧ (POST backend chatMap messages chatId agentStartMs).events = []
      ∧ (POST backend chatMap messages chatId agentStartMs).chatMap
        = chatMap := by
  cases chatId with
  | none => simp [POST, resolveSession, createSession, hb]
  | some c =>
      by_cases hc : c = ""
      · subst hc; simp [POST, resolveSession, createSession, hb]
      · simp only [Option.getD] at hmiss
        simp [POST, resolveSession, createSession, hb, hc, hmiss]

/-- C1 amended witness, at a concrete throwing backend. -/
theorem c1_amended_witness :
    (POST ⟨Except.error "boom"⟩ [] [] none 0).response = Except.error "boom"
      ∧ (POST ⟨Except.error "boom"⟩ [] [] none 0).consoleErrors
        = ["Chat API error: " ++ "boom"]
      ∧ (POST ⟨Except.error "boom"⟩ [] [] none 0).events = []
      ∧ (POST ⟨Except.error "boom"⟩ [] [] none 0).chatMap = [] :=
  c1_amended ⟨Except.error "boom"⟩ [] [] none 0 "boom" rfl rfl

/-! ### C2 — the trace input -/

/-- C2 counterexample: in a conversation whose final message is an
assistant message, the trace input is the assistant's text (`"hello"`),
not the last user-authored text (`"hi"`) the claim asserts. -/
theorem c2_counterexample :
    traceInput
        [⟨"user", [MsgPart.text "hi"]⟩, ⟨"assistant", [MsgPart.text "hello"]⟩]
      = "hello"
      ∧ claimTraceInput
        [⟨"user", [MsgPart.text "hi"]⟩, ⟨"assistant", [MsgPart.text "hello"]⟩]
      = "hi"
      ∧ ¬ traceInput
        [⟨"user", [MsgPart.text "hi"]⟩, ⟨"assistant", [MsgPart.text "hello"]⟩]
      = claimTraceInput
        [⟨"user", [MsgPart.text "hi"]⟩, ⟨"assistant", [MsgPart.text "hello"]⟩] := by
  refine ⟨rfl, rfl, ?_⟩; decide

/-- C2 (amended): the trace input is the first text part of the final
message of the conversation, regardless of the message's role; when the
conversation is empty, the final message has no text part, or that text is
the empty string, the input is the placeholder `"Chat request"`. -/
theorem c2_amended (messages : List UIMessage) :
    traceInput messages = amendedTraceInput messages := by
  unfold traceInput amendedTraceInput
  cases h : messages.getLast? with
  | none => rfl
  | some m =>
      dsimp only
      rw [firstTextPart_eq_head]
      cases ht : (textParts m.parts).head? with
      | none => rfl
      | some t =>
          by_cases he : t = ""
          · subst he; simp [jsOrString]
          · simp [jsOrString, he]

/-! ### C3 — session reuse for a shared conversation identifier -/

/-- C3: two sequential requests carrying the same non-empty conversation
identifier (the first finding no existing mapping) resolve to the same
session identifier, and `startSession` is invoked exactly once across the
two requests. -/
theorem c3_session_reuse (b1 b2 : Backend) (m0 : List (String × String))
    (c sid : String) (msgs1 msgs2 : List UIMessage) (t1 t2 : Int)
    (hc : ¬ c = "") (hmiss : m0.lookup c = none)
    (hb : b1.startSessionResult = Except.ok sid) :
    (POST b1 m0 msgs1 (some c) t1).sessionId = some sid
      ∧ (POST b2 (POST b1 m0 msgs1 (some c) t1).chatMap msgs2 (some c) t2).sessionId
        = some sid
      ∧ (POST b1 m0 msgs1 (some c) t1).events.countP isStartSessionEv
          + (POST b2 (POST b1 m0 msgs1 (some c) t1).chatMap msgs2 (some c) t2).events.countP
              isStartSessionEv
        = 1 := by
  simp [POST, resolveSession, createSession, hb, hc, hmiss, List.lookup,
    isStartSessionEv, List.countP_cons]

/-- C3 witness: the identifier `"chat-abc123"` across two sequential
requests against an initially empty mapping. -/
theorem c3_session_reuse_witness :
    (POST ⟨Except.ok "s1"⟩ [] [] (some "chat-abc123") 0).sessionId = some "s1"
      ∧ (POST ⟨Except.ok "s2"⟩
          (POST ⟨Except.ok "s1"⟩ [] [] (some "chat-abc123") 0).chatMap []
          (some "chat-abc123") 1).sessionId = some "s1"
      ∧ (POST ⟨Except.ok "s1"⟩ [] [] (some "chat-abc123") 0).events.countP
            isStartSessionEv
          + (POST ⟨Except.ok "s2"⟩
              (POST ⟨Except.ok "s1"⟩ [] [] (some "chat-abc123") 0).chatMap []
              (some "chat-abc123") 1).events.countP isStartSessionEv
        = 1 :=
  c3_session_reuse ⟨Except.ok "s1"⟩ ⟨Except.ok "s2"⟩ [] "chat-abc123" "s1"
    [] [] 0 1 (by decide) rfl rfl

/-! ### C9 — absent/empty conversation identifier -/

/-- C9: two requests each carrying a falsy (absent or empty) conversation
identifier are independent: each invokes `startSession` exactly once, the
mapping is left unchanged by both, and (the backend returning distinct
fresh identifiers) no session is reused between them. -/
theorem c9_no_reuse (b1 b2 : Backend) (m0 : List (String × String))
    (i1 i2 : Option String) (s1 s2 : String) (msgs1 msgs2 : List UIMessage)
    (t1 t2 : Int) (h1 : optTruthy i1 = false) (h2 : optTruthy i2 = false)
    (hb1 : b1.startSessionResult = Except.ok s1)
    (hb2 : b2.startSessionResult = Except.ok s2) (hne : ¬ s1 = s2) :
    (POST b1 m0 msgs1 i1 t1).chatMap = m0
      ∧ (POST b2 (POST b1 m0 msgs1 i1 t1).chatMap msgs2 i2 t2).chatMap = m0
      ∧ (POST b1 m0 msgs1 i1 t1).sessionId = some s1
      ∧ (POST b2 (POST b1 m0 msgs1 i1 t1).chatMap msgs2 i2 t2).sessionId
        = some s2
      ∧ ¬ (POST b1 m0 msgs1 i1 t1).sessionId
        = (POST b2 (POST b1 m0 msgs1 i1 t1).chatMap msgs2 i2 t2).sessionId
      ∧ (POST b1 m0 msgs1 i1 t1).events.countP isStartSessionEv = 1
      ∧ (POST b2 (POST b1 m0 msgs1 i1 t1).chatMap msgs2 i2 t2).events.countP
          isStartSessionEv = 1 := by
  have e1 : i1 = none ∨ i1 = some "" := by
    cases i1 with
    | none => exact Or.inl rfl
    | some s =>
        refine Or.inr ?_
        simp [optTruthy] at h1
        simp [h1]
  have e2 : i2 = none ∨ i2 = some "" := by
    cases i2 with
    | none => exact Or.inl rfl
    | some s =>
        refine Or.inr ?_
        simp [optTruthy] at h2
        simp [h2]
  rcases e1 with rfl | rfl <;> rcases e2 with rfl | rfl <;>
    simp [POST, resolveSession, createSession, hb1, hb2, hne,
      isStartSessionEv, List.countP_cons]

/-! ### C4 — tool spans -/

/-- C4: every executed tool invocation (weather and temperature
conversion) emits exactly one tool span; its tags contain the `"error"`
marker exactly when the invocation raised; and on failure the error
message is serialized as the span's output while the error itself is
re-raised to the caller, not suppressed. -/
theorem c4_tool_spans (location : String) (randTemperature temperature : Int)
    (raised : Option JsError) (startMs nowMs : Int) :
    (weatherToolRun location randTemperature raised startMs nowMs).2.countP
        isToolSpanEv = 1
      ∧ (convertToolRun temperature raised startMs nowMs).2.countP
        isToolSpanEv = 1
      ∧ (weatherToolRun location randTemperature raised startMs nowMs).2.countP
        isErrorTaggedToolSpanEv = (if raised.isSome then 1 else 0)
      ∧ (convertToolRun temperature raised startMs nowMs).2.countP
        isErrorTaggedToolSpanEv = (if raised.isSome then 1 else 0)
      ∧ (∀ err, raised = some err →
          (weatherToolRun location randTemperature raised startMs nowMs).1
              = Except.error err
            ∧ toolSpanOutputs
                (weatherToolRun location randTemperature raised startMs nowMs).2
              = [errorJson (jsErrorMessage err)]
            ∧ (convertToolRun temperature raised startMs nowMs).1
              = Except.error err
            ∧ toolSpanOutputs
                (convertToolRun temperature raised startMs nowMs).2
              = [errorJson (jsErrorMessage err)]) := by
  cases raised with
  | none =>
      simp [weatherToolRun, convertToolRun, isToolSpanEv,
        isErrorTaggedToolSpanEv, List.countP_cons]
  | some err =>
      simp [weatherToolRun, convertToolRun, isToolSpanEv,
        isErrorTaggedToolSpanEv, toolSpanOutputs, List.countP_cons]

/-- C4 witness: a failing weather invocation at concrete arguments emits
the error-output span and re-raises. -/
theorem c4_tool_spans_witness :
    (weatherToolRun "Boston" 70 (some (JsError.error "api down")) 0 3).1
        = Except.error (JsError.error "api down")
      ∧ toolSpanOutputs
          (weatherToolRun "Boston" 70 (some (JsError.error "api down")) 0 3).2
        = [errorJson (jsErrorMessage (JsError.error "api down"))] := by
  have h := c4_tool_spans "Boston" 70 70 (some (JsError.error "api down")) 0 3
  have h5 := h.2.2.2.2 (JsError.error "api down") rfl
  exact ⟨h5.1, h5.2.1⟩

/-! ### C5 — provider throws mid-stream -/

/-- C5: when the model provider throws mid-stream with an `Error` carrying
some message, the concluding output contains that message as a substring,
and no LLM span is emitted for that request. -/
theorem c5_stream_error (messages : List UIMessage) (m : String)
    (agentStartMs nowMs : Int) :
    (streamEvents messages (StreamOutcome.errored (JsError.error m))
        agentStartMs nowMs).countP isLlmSpanEv = 0
      ∧ ∃ pre post,
          concludeOutputs
              (streamEvents messages (StreamOutcome.errored (JsError.error m))
                agentStartMs nowMs)
            = [pre ++ m ++ post] := by
  refine ⟨?_, "Error: ", "", ?_⟩
  · simp [streamEvents, onErrorEvents, isLlmSpanEv, List.countP_cons]
  · simp [streamEvents, onErrorEvents, concludeOutputs, jsErrorMessage,
      string_append_empty]

/-! ### C6 — conclude before flush, flush exactly once -/

/-- C6: on either stream termination path (completion or failure) the
callback invokes `flush` exactly once, with its `conclude` call strictly
before the `flush` call; the handler itself (before and while streaming)
never flushes, so flush happens exactly once per terminated request. -/
theorem c6_conclude_then_flush (backend : Backend)
    (chatMap : List (String × String)) (messages : List UIMessage)
    (chatId : Option String) (agentStartMs nowMs : Int)
    (outcome : StreamOutcome) :
    (streamEvents messages outcome agentStartMs nowMs).countP isFlushEv = 1
      ∧ (∃ i j, i < j
          ∧ (∃ o, (streamEvents messages outcome agentStartMs nowMs).get? i
              = some (LogEvent.conclude o))
          ∧ (streamEvents messages outcome agentStartMs nowMs).get? j
            = some LogEvent.flush)
      ∧ (POST backend chatMap messages chatId agentStartMs).events.countP
          isFlushEv = 0 := by
  refine ⟨?_, ?_, ?_⟩
  · cases outcome <;>
      simp [streamEvents, onFinishEvents, onErrorEvents, isFlushEv,
        List.countP_cons]
  · cases outcome with
    | finished text usage =>
        exact ⟨1, 2, by decide,
          ⟨jsOrString text "Chat completed successfully", rfl⟩, rfl⟩
    | errored err =>
        exact ⟨0, 1, by decide, ⟨"Error: " ++ jsErrorMessage err, rfl⟩, rfl⟩
  · have hres :
        (resolveSession backend chatMap chatId).events.countP isFlushEv
          = 0 := by
      unfold resolveSession createSession
      cases chatId with
      | none =>
          cases backend.startSessionResult <;>
            simp [isFlushEv, List.countP_cons]
      | some c =>
          by_cases hc : c = "" <;>
            cases hl : chatMap.lookup c <;>
              cases backend.startSessionResult <;>
                simp [hc, hl, isFlushEv, List.countP_cons]
    unfold POST
    cases hr : (resolveSession backend chatMap chatId).result with
    | error e => simpa only [hr] using hres
    | ok sid =>
        simp only [hr]
        simp [List.countP_append, List.countP_cons, isFlushEv, hres]

/-! ### C7 — concluding output on successful completion -/

/-- C7 counterexample: when streaming completes with final text `""`, the
hierarchy is concluded with `"Chat completed successfully"`, not with the
final text, refuting the claim for the empty string. -/
theorem c7_counterexample :
    concludeOutputs (onFinishEvents [] "" none 0 0)
        = ["Chat completed successfully"]
      ∧ ¬ concludeOutputs (onFinishEvents [] "" none 0 0) = [""] := by
  exact ⟨rfl, by decide⟩

/-- C7 (amended): when streaming completes with final assistant text `t`,
the hierarchy is concluded with `t` whenever `t` is non-empty; when `t` is
the empty string the concluding output is `"Chat completed successfully"`
instead. -/
theorem c7_amended (messages : List UIMessage) (text : String)
    (usage : Option Usage) (agentStartMs nowMs : Int) :
    (¬ text = "" →
        concludeOutputs (onFinishEvents messages text usage agentStartMs nowMs)
          = [text])
      ∧ (text = "" →
        concludeOutputs (onFinishEvents messages text usage agentStartMs nowMs)
          = ["Chat completed successfully"]) := by
  constructor
  · intro h
    simp [onFinishEvents, concludeOutputs, jsOrString, h]
  · intro h
    subst h
    simp [onFinishEvents, concludeOutputs, jsOrString]

/-- C7 amended witness: a concrete non-empty final text is the concluding
output. -/
theorem c7_amended_witness :
    concludeOutputs (onFinishEvents [] "hello" none 0 0) = ["hello"] :=
  (c7_amended [] "hello" none 0 0).1 (by decide)

/-! ### C10 — millisecond-granular nanosecond durations -/

/-- C10: every `durationNs` recorded on a tool span or LLM span is the
millisecond clock difference multiplied by 1,000,000, hence (whenever the
clock has not gone backwards) a non-negative exact multiple of 1,000,000
nanoseconds. -/
theorem c10_duration_granularity (location : String)
    (randTemperature temperature : Int) (raised : Option JsError)
    (messages : List UIMessage) (text : String) (usage : Option Usage)
    (startMs nowMs : Int) (h : startMs ≤ nowMs) :
    ∀ d ∈ spanDurations
          (weatherToolRun location randTemperature raised startMs nowMs).2
        ++ spanDurations (convertToolRun temperature raised startMs nowMs).2
        ++ spanDurations (onFinishEvents messages text usage startMs nowMs),
      0 ≤ d ∧ (1000000 : Int) ∣ d ∧ d = (nowMs - startMs) * 1000000 := by
  have hd : (0 : Int) ≤ (nowMs - startMs) * 1000000 := by
    have := sub_nonneg.mpr h
    positivity
  have hdvd : (1000000 : Int) ∣ (nowMs - startMs) * 1000000 :=
    Dvd.intro (nowMs - startMs) (mul_comm _ _)
  intro d hdmem
  cases raised <;>
    simp [weatherToolRun, convertToolRun, onFinishEvents, spanDurations,
      spanDurationNs] at hdmem <;>
    simp [hdmem, hd, hdvd]

/-- C10 witness: concrete clocks 3 ms apart yield a span duration of
exactly 3,000,000 ns on every span. -/
theorem c10_duration_granularity_witness :
    0 ≤ (3000000 : Int) ∧ (1000000 : Int) ∣ 3000000
      ∧ (3000000 : Int) = (3 - 0) * 1000000 := by
  have h := c10_duration_granularity "Boston" 70 70 none [] "done" none 0 3
    (by decide)
  exact h 3000000 (by
    simp [weatherToolRun, convertToolRun, onFinishEvents, spanDurations,
      spanDurationNs])

/-! ### C8 — round trip of the agent-span conversation serialization -/

lemma dropLit_append (lit rest : List Char) :
    dropLit lit (lit ++ rest) = some rest := by
  induction lit with
  | nil => rfl
  | cons l ls ih => simp [dropLit, ih]

lemma parseStrAux_esc (s rest : List Char) :
    parseStrAux (escChars s ++ ('"' :: rest)) = some (s, rest) := by
  induction s with
  | nil =>
      show parseStrAux ([] ++ '"' :: rest) = some ([], rest)
      rw [List.nil_append]
      unfold parseStrAux
      simp
  | cons c cs ih =>
      by_cases hc : c = '"' ∨ c = '\\'
      · show parseStrAux (escChars (c :: cs) ++ '"' :: rest) = some (c :: cs, rest)
        rw [escChars, if_pos hc]
        unfold parseStrAux
        simp [ih]
      · push_neg at hc
        show parseStrAux (escChars (c :: cs) ++ '"' :: rest) = some (c :: cs, rest)
        rw [escChars, if_neg (by simp [hc.1, hc.2])]
        rw [List.cons_append]
        unfold parseStrAux
        simp [hc.1, hc.2, ih]

lemma parseQuoted_enc (s : String) (rest : List Char) :
    parseQuoted (encStr s ++ rest) = some (s.data, rest) := by
  simp [encStr, parseQuoted, List.append_assoc, parseStrAux_esc]

lemma parsePair_enc (p : String × String) (rest : List Char) :
    parsePair (encPairChars p ++ rest) = some (p, rest) := by
  obtain ⟨r, c⟩ := p
  simp only [encPairChars, List.append_assoc, List.singleton_append]
  unfold parsePair
  simp only [dropLit_append, parseQuoted_enc]

lemma encTail_length (ps : List (String × String)) :
    ps.length + 1 ≤ (encTailChars ps).length := by
  induction ps with
  | nil => simp [encTailChars]
  | cons q qs ih =>
      simp only [encTailChars, List.length_cons, List.length_append]
      omega

lemma parseArrayAux_enc (ps : List (String × String)) :
    ∀ (p : String × String) (rest : List Char) (fuel : Nat),
      ps.length + 1 ≤ fuel →
      parseArrayAux fuel (encPairChars p ++ (encTailChars ps ++ rest))
        = some (p :: ps, rest) := by
  induction ps with
  | nil =>
      intro p rest fuel hfuel
      cases fuel with
      | zero => omega
      | succ f =>
          simp only [encTailChars, List.singleton_append]
          unfold parseArrayAux
          simp [parsePair_enc]
  | cons q qs ih =>
      intro p rest fuel hfuel
      cases fuel with
      | zero => omega
      | succ f =>
          simp only [encTailChars, List.cons_append, List.append_assoc]
          unfold parseArrayAux
          rw [parsePair_enc]
          have hq := ih q rest f (by
            simp only [List.length_cons] at hfuel
            omega)
          simp [hq]

lemma encPair_length (p : String × String) : 8 ≤ (encPairChars p).length := by
  have h8 : ("\x7b\"role\":".data).length = 8 := by decide
  simp only [encPairChars, List.length_append, h8]
  omega

lemma parse_enc_roundtrip (l : List (String × String)) :
    parseAgentInput (jsonStringifyPairs l) = some l := by
  cases l with
  | nil => rfl
  | cons p ps =>
      have hshape : (jsonStringifyPairs (p :: ps)).data
          = '[' :: (encPairChars p ++ encTailChars ps) := by
        simp [jsonStringifyPairs, encArrayChars]
      have hne : ¬ jsonStringifyPairs (p :: ps) = "[]" := by
        intro h
        have hd := congrArg String.data h
        rw [hshape] at hd
        have hlen := congrArg List.length hd
        have h1 := encPair_length p
        have h2 := encTail_length ps
        simp only [List.length_cons, List.length_append, List.length_nil] at hlen
        omega
      unfold parseAgentInput
      rw [if_neg hne, hshape]
      have harr : parseArrayAux (encPairChars p ++ encTailChars ps).length
          (encPairChars p ++ (encTailChars ps ++ []))
          = some (p :: ps, []) :=
        parseArrayAux_enc ps p [] _ (by
          have := encTail_length ps
          simp only [List.length_append]
          omega)
      rw [List.append_nil, List.length_append] at harr
      simp [harr]

/-- C8 counterexample: the agent-span serialization joins a message's text
parts with a space, so the conversations `[{user, [text "a b"]}]` and
`[{user, [text "a", text "b"]}]` serialize identically while their
text-part lists differ — no parser can recover the text content of every
text part from the serialization, refuting the claim. -/
theorem c8_counterexample :
    ¬ ∃ parse : String → List (String × List String),
        ∀ conv : List UIMessage,
          parse (serializeConversation conv)
            = conv.map (fun m => (m.role, textParts m.parts)) := by
  rintro ⟨parse, hp⟩
  have h1 := hp [⟨"user", [MsgPart.text "a b"]⟩]
  have h2 := hp [⟨"user", [MsgPart.text "a", MsgPart.text "b"]⟩]
  have heq : serializeConversation [⟨"user", [MsgPart.text "a b"]⟩]
      = serializeConversation
          [⟨"user", [MsgPart.text "a", MsgPart.text "b"]⟩] := by decide
  rw [heq] at h1
  exact absurd (h1.symm.trans h2) (by decide)

/-- C8 (amended): serializing a conversation to the agent-span input
format and parsing it back recovers, for every message, its role and its
flattened content — the message's text parts and `[type]` placeholders for
non-text parts, joined by single spaces; the boundaries between individual
text parts are lossy by design. -/
theorem c8_amended_roundtrip (conv : List UIMessage) :
    parseAgentInput (serializeConversation conv)
      = some (conv.map (fun m => (m.role, flattenParts m.parts))) :=
  parse_enc_roundtrip (serializePairs conv)

/-- C9 witness: one request with an absent identifier and one with an
empty identifier, against fresh-session backends. -/
theorem c9_no_reuse_witness :
    (POST ⟨Except.ok "s1"⟩ [] [] none 0).chatMap = []
      ∧ (POST ⟨Except.ok "s2"⟩ (POST ⟨Except.ok "s1"⟩ [] [] none 0).chatMap []
          (some "") 1).chatMap = []
      ∧ (POST ⟨Except.ok "s1"⟩ [] [] none 0).sessionId = some "s1"
      ∧ (POST ⟨Except.ok "s2"⟩ (POST ⟨Except.ok "s1"⟩ [] [] none 0).chatMap []
          (some "") 1).sessionId = some "s2"
      ∧ ¬ (POST ⟨Except.ok "s1"⟩ [] [] none 0).sessionId
        = (POST ⟨Except.ok "s2"⟩ (POST ⟨Except.ok "s1"⟩ [] [] none 0).chatMap []
            (some "") 1).sessionId
      ∧ (POST ⟨Except.ok "s1"⟩ [] [] none 0).events.countP isStartSessionEv = 1
      ∧ (POST ⟨Except.ok "s2"⟩ (POST ⟨Except.ok "s1"⟩ [] [] none 0).chatMap []
          (some "") 1).events.countP isStartSessionEv = 1 :=
  c9_no_reuse ⟨Except.ok "s1"⟩ ⟨Except.ok "s2"⟩ [] none (some "") "s1" "s2"
    [] [] 0 1 rfl (by decide) rfl rfl (by decide)
